import Mathlib


/-!
Shallow embedding of the `property_data_pipeline` accessor layer
(`src/population.py`, `src/income.py`, `src/dwelling_structure.py`,
`src/ancestry.py`) and proofs of the specification claims.

Modelling conventions:
* a `Record` is the single row wrapped by an accessor: a total function from
  column name to `Option Rat` (`none` = column absent from the dataset);
  numeric cell values are modelled by `Rat` (Python floats used as exact
  decimals/counts in this code);
* the dataframe passed to a constructor is a list of such rows;
* Python exceptions become `Except` values: the two `ValueError`s raised by
  the constructors ("DataFrame is empty" / "DataFrame contains more than one
  row") are `RecordError.emptyRecord` / `RecordError.ambiguousRecord` (the
  spec's `EmptyRecordError` / `AmbiguousRecordError`); a `KeyError` on a
  missing column is `PyError.missingField`; the `ValueError` raised for an
  unrecognized age band is `PyError.invalidParameter` (the spec's
  `MissingFieldError` / `InvalidParameterError`).
* Python dicts are association lists in insertion order; dict update keeps
  the original key position and overwrites the value, as in CPython.
-/

/-- A single census row: column name ↦ value (`none` when the column is
absent from the dataset). -/
def Record : Type := String → Option Rat

instance : Inhabited Record := ⟨fun _ => none⟩

/-- The tabular input handed to an accessor constructor. -/
structure DataFrame where
  rows : List Record

/-- Mirrors `pandas.DataFrame.empty` for the row dimension. -/
def DataFrame.isEmptyDf (df : DataFrame) : Bool := df.rows.isEmpty

/-- The two constructor-time `ValueError`s; the spec names them
`EmptyRecordError` ("DataFrame is empty") and `AmbiguousRecordError`
("DataFrame contains more than one row"). -/
inductive RecordError where
  | emptyRecord
  | ambiguousRecord
deriving DecidableEq, Repr

/-- Errors raised by accessor methods: `missingField c` is the `KeyError`
raised by `float(self.df[c].iloc[0])` when column `c` is absent (the spec's
`MissingFieldError`); `invalidParameter` is the `ValueError("Invalid age
band...")` (the spec's `InvalidParameterError`). -/
inductive PyError where
  | missingField (col : String)
  | invalidParameter
deriving DecidableEq, Repr

instance {ε α : Type} [DecidableEq ε] [DecidableEq α] : DecidableEq (Except ε α) := fun a b =>
  match a, b with
  | .ok x, .ok y =>
    if h : x = y then .isTrue (by rw [h]) else .isFalse (fun hc => h (Except.ok.inj hc))
  | .error x, .error y =>
    if h : x = y then .isTrue (by rw [h]) else .isFalse (fun hc => h (Except.error.inj hc))
  | .ok _, .error _ => .isFalse (fun hc => Except.noConfusion hc)
  | .error _, .ok _ => .isFalse (fun hc => Except.noConfusion hc)

/-- Shared body of the four `__init__` validators:
`if df.empty: raise ...; if len(df) > 1: raise ...; self.df = df`. -/
def validateRow (df : DataFrame) : Except RecordError Record :=
  if df.isEmptyDf then .error .emptyRecord
  else if 1 < df.rows.length then .error .ambiguousRecord
  else .ok (df.rows.headD (fun _ => none))

/-- `Population.__init__` (src/population.py lines 11-16). -/
def Population.init (df : DataFrame) : Except RecordError Record := validateRow df

/-- `Income.__init__` (src/income.py lines 14-19). -/
def Income.init (df : DataFrame) : Except RecordError Record := validateRow df

/-- `DwellingStructure.__init__` (src/dwelling_structure.py lines 11-16). -/
def DwellingStructure.init (df : DataFrame) : Except RecordError Record := validateRow df

/-- `Ancestry.__init__` (src/ancestry.py lines 48-53). -/
def Ancestry.init (df : DataFrame) : Except RecordError Record := validateRow df

/-- `_get_value`: `float(self.df[column].iloc[0])`; `KeyError` when the
column is absent. Identical helper in all four classes. -/
def getValue (r : Record) (c : String) : Except PyError Rat :=
  match r c with
  | some v => .ok v
  | none => .error (.missingField c)

/-- Builds a Python dict literal `{key: self._get_value(col), ...}` in entry
order, failing at the first absent column exactly as the Python evaluation
order does. -/
def readDict (r : Record) : List (String × String) → Except PyError (List (String × Rat))
  | [] => .ok []
  | (k, c) :: t =>
    match getValue r c with
    | .error e => .error e
    | .ok v =>
      match readDict r t with
      | .error e => .error e
      | .ok rest => .ok ((k, v) :: rest)

/-- Nested dict literal `{key: {k: self._get_value(c), ...}, ...}`. -/
def readDict2 (r : Record) : List (String × List (String × String)) → Except PyError (List (String × List (String × Rat)))
  | [] => .ok []
  | (k, inner) :: t =>
    match readDict r inner with
    | .error e => .error e
    | .ok d =>
      match readDict2 r t with
      | .error e => .error e
      | .ok rest => .ok ((k, d) :: rest)

/-- `Ancestry.calculate_percentage` (src/ancestry.py lines 247-257):
`(value / total * 100) if total != 0 else 0`. -/
def calculate_percentage (value total : Rat) : Rat :=
  if total ≠ 0 then value / total * 100 else 0

/-- Concrete dataframes for the C1 witness. -/
def dfZero : DataFrame := ⟨[]⟩

def rowOne : Record := fun _ => some 1

def dfOne : DataFrame := ⟨[rowOne]⟩

def dfTwo : DataFrame := ⟨[rowOne, rowOne]⟩

/- ### Income accessor (src/income.py) -/

/-- `self.income_bands` (src/income.py lines 22-32); the `3500_more` upper
bound 5000 is the configured ceiling. -/
def income_bands : List (String × (Rat × Rat)) :=
  [("650_799", (650, 799)), ("800_999", (800, 999)), ("1000_1249", (1000, 1249)),
   ("1250_1499", (1250, 1499)), ("1500_1749", (1500, 1749)), ("1750_1999", (1750, 1999)),
   ("2000_2999", (2000, 2999)), ("3000_3499", (3000, 3499)), ("3500_more", (3500, 5000))]

/-- `self.income_bands.keys()` in insertion order. -/
def incomeBandNames : List String := income_bands.map Prod.fst

/-- `self.age_bands` (src/income.py lines 35-38). -/
def age_bands : List String :=
  ["15_19", "20_24", "25_34", "35_44", "45_54", "55_64", "65_74", "75_84", "85ov"]

/-- Midpoint `(low + high) / 2` of a named income band, via a lookup in
`self.income_bands` (only ever applied to keys of that table). -/
def midpointOf (b : String) : Rat :=
  match income_bands.lookup b with
  | some lh => (lh.1 + lh.2) / 2
  | none => 0

/-- Column holding the count of income band `b` for age band `a`
(src/income.py lines 66-70): `P_{band}_85ov` for the oldest band,
`P_{band}_{age}_yrs` otherwise. -/
def incomeColName (b a : String) : String :=
  if a = "85ov" then "P_" ++ b ++ "_85ov" else "P_" ++ b ++ "_" ++ a ++ "_yrs"

/-- Column holding the not-stated count for age band `a`
(src/income.py lines 74-77). -/
def notStatedColName (a : String) : String :=
  if a = "85ov" then "P_PI_NS_ns_85_yrs_ovr" else "P_PI_NS_ns_" ++ a ++ "_yrs"

/-- The (key, column) pairs read by `get_income_by_age`, in loop order:
the nine income bands then `not_stated`. -/
def incomeAgeCols (a : String) : List (String × String) :=
  incomeBandNames.map (fun b => (b, incomeColName b a)) ++ [("not_stated", notStatedColName a)]

/-- `Income.get_income_by_age` (src/income.py lines 51-80). -/
def get_income_by_age (r : Record) (a : String) : Except PyError (List (String × Rat)) :=
  if a ∉ age_bands then .error .invalidParameter
  else readDict r (incomeAgeCols a)

/-- Loop body of `get_income_distribution` over a list of age bands. -/
def incomeDistributionAux (r : Record) : List String → Except PyError (List (String × List (String × Rat)))
  | [] => .ok []
  | a :: t =>
    match get_income_by_age r a with
    | .error e => .error e
    | .ok d =>
      match incomeDistributionAux r t with
      | .error e => .error e
      | .ok rest => .ok ((a, d) :: rest)

/-- `Income.get_income_distribution` (src/income.py lines 82-94). -/
def get_income_distribution (r : Record) : Except PyError (List (String × List (String × Rat))) :=
  incomeDistributionAux r age_bands

/-- Accumulation step of `calculate_average_income` over one
`(income_band, count)` item: skip `not_stated`, otherwise add
`midpoint * count` to the weighted sum and `count` to the stated count. -/
def avgStep (acc : Rat × Rat) (bc : String × Rat) : Rat × Rat :=
  if bc.1 ≠ "not_stated" then (acc.1 + midpointOf bc.1 * bc.2, acc.2 + bc.2) else acc

/-- The two nested loops of `calculate_average_income`
(src/income.py lines 115-121), starting from `(0, 0)`. -/
def sumWeighted (dist : List (String × List (String × Rat))) : Rat × Rat :=
  dist.foldl (fun acc ad => ad.2.foldl avgStep acc) (0, 0)

/-- `Income.calculate_average_income` (src/income.py lines 96-127);
`age_band = none` models Python `None`, and an empty-string age band is
falsy in Python so it also selects the all-ages branch. -/
def calculate_average_income (r : Record) (ageBand : Option String) : Except PyError (Rat × Rat) :=
  let distE : Except PyError (List (String × List (String × Rat))) :=
    match ageBand with
    | some a =>
      if a = "" then get_income_distribution r
      else
        match get_income_by_age r a with
        | .error e => .error e
        | .ok d => .ok [(a, d)]
    | none => get_income_distribution r
  match distE with
  | .error e => .error e
  | .ok dist =>
    let s := sumWeighted dist
    if s.2 = 0 then .ok (0, 0) else .ok (s.1 / s.2, s.2)

/-- Python `int()` truncation toward zero, applied by
`get_income_percentiles` to each count before expanding the multiset. -/
def pyInt (q : Rat) : Int := if 0 ≤ q then ⌊q⌋ else ⌈q⌉

/-- Loop body of `get_income_percentiles` building `all_incomes`
(src/income.py lines 138-146): per age band, per income band (skipping
`not_stated`), extend by `int(count)` copies of the band midpoint. -/
def allIncomesAux (r : Record) : List String → List Rat → Except PyError (List Rat)
  | [], acc => .ok acc
  | a :: t, acc =>
    match get_income_by_age r a with
    | .error e => .error e
    | .ok d =>
      allIncomesAux r t
        (d.foldl (fun l bc =>
          if bc.1 ≠ "not_stated" then l ++ List.replicate (pyInt bc.2).toNat (midpointOf bc.1)
          else l) acc)

/-- The fully expanded `all_incomes` multiset. -/
def allIncomes (r : Record) : Except PyError (List Rat) := allIncomesAux r age_bands []

/-- `np.percentile(a, p)` with the default linear-interpolation method:
sort, take virtual index `h = p/100 * (n-1)`, and interpolate between the
order statistics at `⌊h⌋` and `⌈h⌉`. -/
def npPercentile (l : List Rat) (p : Rat) : Rat :=
  let s := List.insertionSort (fun a b : Rat => a ≤ b) l
  let n : Nat := s.length
  let h : Rat := p / 100 * ((n : Rat) - 1)
  let lo := (⌊h⌋).toNat
  let hi := (⌈h⌉).toNat
  s.getD lo 0 + (h - (⌊h⌋ : Rat)) * (s.getD hi 0 - s.getD lo 0)

/-- `Income.get_income_percentiles` (src/income.py lines 129-163). -/
def get_income_percentiles (r : Record) : Except PyError (List (String × Rat)) :=
  match allIncomes r with
  | .error e => .error e
  | .ok l =>
    if l.isEmpty then
      .ok [("p25", 0), ("median", 0), ("p75", 0), ("p90", 0)]
    else
      .ok [("p25", npPercentile l 25), ("median", npPercentile l 50),
           ("p75", npPercentile l 75), ("p90", npPercentile l 90)]

/- ### Claim C2: weighted average income -/

/-- Spec-side weighted average for one age band, written from the spec's
words: sum over the nine income bands of `band_midpoint * band_count`
divided by the sum of `band_count`, `(0, 0)` when the denominator is
zero; the not-stated count is excluded. -/
def specWeightedAverage (counts : String → Rat) : Rat × Rat :=
  let tot := (incomeBandNames.map counts).sum
  if tot = 0 then (0, 0)
  else ((incomeBandNames.map (fun b => midpointOf b * counts b)).sum / tot, tot)

/-- Spec-side weighted average across all age bands. -/
def specWeightedAverageAll (counts : String → String → Rat) : Rat × Rat :=
  let tot := (age_bands.map (fun a => (incomeBandNames.map (counts a)).sum)).sum
  if tot = 0 then (0, 0)
  else ((age_bands.map (fun a =>
          (incomeBandNames.map (fun b => midpointOf b * counts a b)).sum)).sum / tot, tot)

/-- The record of the spec's worked example: count 10 in income band
`650_799` for age band `25_34`, every other count 0 (all columns
present). -/
def exampleRecord : Record :=
  fun c => if c = "P_650_799_25_34_yrs" then some 10 else some 0

/- ### Ancestry accessor (src/ancestry.py) -/

/-- `ancestry_prefix_list` (src/ancestry.py lines 3-36); note the
duplicated `"Other_"` entry (positions 21 and 32). -/
def ancestryPrefixList : List String :=
  ["Aust_", "Aust_Abor_", "Chinese_", "Croatian_", "Dutch_", "English_",
   "Filipino_", "French_", "German_", "Greek_", "Hungarian_", "Indian_",
   "Irish_", "Italian_", "Korean_", "Lebanese_", "Maltese_", "Maori_",
   "Macedonian_", "NZ_", "Other_", "Polish_", "Russian_", "Samoan_",
   "Scottish_", "Serbian_", "Sth_African_", "Spanish_", "Sri_Lankan_",
   "Vietnamese_", "Welsh_", "Other_"]

/-- Python `str.replace('_', ' ')` (single-character replacement). -/
def pyReplaceUnderscore (s : String) : String :=
  ⟨s.toList.map (fun c => if c = '_' then ' ' else c)⟩

/-- Python `str.strip()` on the space characters occurring here. -/
def stripSpaces (s : String) : String :=
  ⟨((s.toList.dropWhile (fun c => c = ' ')).reverse.dropWhile (fun c => c = ' ')).reverse⟩

/-- Display-name cleanup in `get_ancestry_ranking` (src/ancestry.py lines
212-215): `prefix.replace('_', ' ').strip()` followed by the (dead, since
`strip` already removed trailing spaces) trailing-space removal; `endswith(' ')`
and `[:-1]` are modelled on the character list. -/
def displayNameOf (p : String) : String :=
  let d := stripSpaces (pyReplaceUnderscore p)
  if d.toList.getLast? = some ' ' then ⟨d.toList.dropLast⟩ else d

/-- Column prefix chosen by `get_ancestry_summary` (src/ancestry.py lines
82-86): `f"{ancestry}_"`, overridden for the two multi-word names. -/
def ancestrySummaryPre (a : String) : String :=
  if a = "New Zealand" then "NZ_"
  else if a = "South African" then "Sth_African_"
  else a ++ "_"

/-- The six (key, column) pairs of an ancestry birthplace summary dict
(src/ancestry.py lines 88-95). -/
def summaryColsFor (pre : String) : List (String × String) :=
  [("both_overseas", pre ++ "BP_B_OS"), ("father_overseas", pre ++ "FO_B_OS"),
   ("mother_overseas", pre ++ "MO_B_OS"), ("both_australia", pre ++ "BP_B_Aus"),
   ("not_stated", pre ++ "BP_NS"), ("total", pre ++ "Tot_resp")]

/-- `Ancestry.get_ancestry_summary` (src/ancestry.py lines 66-95);
note it performs no vocabulary validation on `a`. -/
def get_ancestry_summary (r : Record) (a : String) : Except PyError (List (String × Rat)) :=
  readDict r (summaryColsFor (ancestrySummaryPre a))

/-- `Ancestry.get_available_ancestries` (src/ancestry.py lines 232-245). -/
def get_available_ancestries : List String :=
  ["Chinese", "Croatian", "Dutch", "English", "Filipino",
   "French", "German", "Greek", "Hungarian", "Indian",
   "Irish", "Italian", "Korean", "Lebanese", "Macedonian",
   "Maltese", "Maori", "New Zealand", "Polish", "Russian",
   "Samoan", "Scottish", "Serbian", "South African", "Spanish",
   "Sri Lankan", "Vietnamese", "Welsh"]

/-- CPython dict assignment `d[k] = v`: overwrite the value at the first
occurrence of the key, keeping its position, else append. -/
def pyDictInsert (d : List (String × Rat)) (k : String) (v : Rat) : List (String × Rat) :=
  if d.any (fun p => p.1 == k) then d.map (fun p => if p.1 == k then (p.1, v) else p)
  else d ++ [(k, v)]

/-- First-write-wins alternative policy for the same dict (used to show
the duplicate-entry collision is harmless, claim C10). -/
def pyDictInsertFW (d : List (String × Rat)) (k : String) (v : Rat) : List (String × Rat) :=
  if d.any (fun p => p.1 == k) then d else d ++ [(k, v)]

/-- Accumulation loop of `get_ancestry_ranking` (src/ancestry.py lines
209-223): for each prefix, read `{prefix}Tot_resp` (the bare `except:
continue` swallows the `KeyError` of an absent column) and store positive
totals under the display name. -/
def ancestryTotalsAux (r : Record) : List String → List (String × Rat) → List (String × Rat)
  | [], d => d
  | pre :: t, d =>
    match r (pre ++ "Tot_resp") with
    | none => ancestryTotalsAux r t d
    | some total =>
      if 0 < total then ancestryTotalsAux r t (pyDictInsert d (displayNameOf pre) total)
      else ancestryTotalsAux r t d

/-- Same loop under the first-write-wins policy. -/
def ancestryTotalsAuxFW (r : Record) : List String → List (String × Rat) → List (String × Rat)
  | [], d => d
  | pre :: t, d =>
    match r (pre ++ "Tot_resp") with
    | none => ancestryTotalsAuxFW r t d
    | some total =>
      if 0 < total then ancestryTotalsAuxFW r t (pyDictInsertFW d (displayNameOf pre) total)
      else ancestryTotalsAuxFW r t d

/-- Descending-by-count order used by
`sorted(..., key=lambda item: item[1], reverse=True)`. -/
def rankGE (a b : String × Rat) : Prop := b.2 ≤ a.2

instance : DecidableRel rankGE := fun a b => inferInstanceAs (Decidable (b.2 ≤ a.2))

instance : IsTotal (String × Rat) rankGE := ⟨fun a b => le_total b.2 a.2⟩

instance : IsTrans (String × Rat) rankGE := ⟨fun _ _ _ h1 h2 => le_trans h2 h1⟩

/-- `Ancestry.get_ancestry_ranking` (src/ancestry.py lines 202-230);
`insertionSort` with `rankGE` is Python's stable descending sort. -/
def get_ancestry_ranking (r : Record) : List (String × Rat) :=
  List.insertionSort rankGE (ancestryTotalsAux r ancestryPrefixList [])

/-- The ranking as it would be under first-write-wins collisions. -/
def ancestryRankingFW (r : Record) : List (String × Rat) :=
  List.insertionSort rankGE (ancestryTotalsAuxFW r ancestryPrefixList [])

/- ### Population accessor (src/population.py) -/

/-- Keys/columns of `get_total_population` (src/population.py lines 29-35). -/
def popTotalCols : List (String × String) :=
  [("total", "Tot_P_P"), ("male", "Tot_P_M"), ("female", "Tot_P_F")]

/-- `Population.get_total_population`. -/
def get_total_population (r : Record) : Except PyError (List (String × Rat)) :=
  readDict r popTotalCols

/-- Helper for the ubiquitous `{total, male, female}` sub-dicts. -/
def tmf (k p m f : String) : String × List (String × String) :=
  (k, [("total", p), ("male", m), ("female", f)])

/-- Keys/columns of `get_age_distribution` (src/population.py lines 37-96). -/
def ageDistCols : List (String × List (String × String)) :=
  [tmf "0-4" "Age_0_4_yr_P" "Age_0_4_yr_M" "Age_0_4_yr_F",
   tmf "5-14" "Age_5_14_yr_P" "Age_5_14_yr_M" "Age_5_14_yr_F",
   tmf "15-19" "Age_15_19_yr_P" "Age_15_19_yr_M" "Age_15_19_yr_F",
   tmf "20-24" "Age_20_24_yr_P" "Age_20_24_yr_M" "Age_20_24_yr_F",
   tmf "25-34" "Age_25_34_yr_P" "Age_25_34_yr_M" "Age_25_34_yr_F",
   tmf "35-44" "Age_35_44_yr_P" "Age_35_44_yr_M" "Age_35_44_yr_F",
   tmf "45-54" "Age_45_54_yr_P" "Age_45_54_yr_M" "Age_45_54_yr_F",
   tmf "55-64" "Age_55_64_yr_P" "Age_55_64_yr_M" "Age_55_64_yr_F",
   tmf "65-74" "Age_65_74_yr_P" "Age_65_74_yr_M" "Age_65_74_yr_F",
   tmf "75-84" "Age_75_84_yr_P" "Age_75_84_yr_M" "Age_75_84_yr_F",
   tmf "85+" "Age_85ov_P" "Age_85ov_M" "Age_85ov_F"]

/-- `Population.get_age_distribution`. -/
def get_age_distribution (r : Record) : Except PyError (List (String × List (String × Rat))) :=
  readDict2 r ageDistCols

/-- Keys/columns of `get_indigenous_statistics` (src/population.py lines 98-121). -/
def indigenousCols : List (String × List (String × String)) :=
  [tmf "total" "Indigenous_P_Tot_P" "Indigenous_P_Tot_M" "Indigenous_P_Tot_F",
   tmf "aboriginal" "Indigenous_psns_Aboriginal_P" "Indigenous_psns_Aboriginal_M" "Indigenous_psns_Aboriginal_F",
   tmf "torres_strait_islander" "Indig_psns_Torres_Strait_Is_P" "Indig_psns_Torres_Strait_Is_M" "Indig_psns_Torres_Strait_Is_F",
   tmf "both" "Indig_Bth_Abor_Torres_St_Is_P" "Indig_Bth_Abor_Torres_St_Is_M" "Indig_Bth_Abor_Torres_St_Is_F"]

/-- `Population.get_indigenous_statistics`. -/
def get_indigenous_statistics (r : Record) : Except PyError (List (String × List (String × Rat))) :=
  readDict2 r indigenousCols

/-- Keys/columns of `get_education_attendance` (src/population.py lines 123-151). -/
def eduAttendCols : List (String × List (String × String)) :=
  [tmf "0-4" "Age_psns_att_educ_inst_0_4_P" "Age_psns_att_educ_inst_0_4_M" "Age_psns_att_educ_inst_0_4_F",
   tmf "5-14" "Age_psns_att_educ_inst_5_14_P" "Age_psns_att_educ_inst_5_14_M" "Age_psns_att_educ_inst_5_14_F",
   tmf "15-19" "Age_psns_att_edu_inst_15_19_P" "Age_psns_att_edu_inst_15_19_M" "Age_psns_att_edu_inst_15_19_F",
   tmf "20-24" "Age_psns_att_edu_inst_20_24_P" "Age_psns_att_edu_inst_20_24_M" "Age_psns_att_edu_inst_20_24_F",
   tmf "25+" "Age_psns_att_edu_inst_25_ov_P" "Age_psns_att_edu_inst_25_ov_M" "Age_psns_att_edu_inst_25_ov_F"]

/-- `Population.get_education_attendance`. -/
def get_education_attendance (r : Record) : Except PyError (List (String × List (String × Rat))) :=
  readDict2 r eduAttendCols

/-- Keys/columns of `get_education_completion` (src/population.py lines 153-186). -/
def eduCompleteCols : List (String × List (String × String)) :=
  [tmf "year_12" "High_yr_schl_comp_Yr_12_eq_P" "High_yr_schl_comp_Yr_12_eq_M" "High_yr_schl_comp_Yr_12_eq_F",
   tmf "year_11" "High_yr_schl_comp_Yr_11_eq_P" "High_yr_schl_comp_Yr_11_eq_M" "High_yr_schl_comp_Yr_11_eq_F",
   tmf "year_10" "High_yr_schl_comp_Yr_10_eq_P" "High_yr_schl_comp_Yr_10_eq_M" "High_yr_schl_comp_Yr_10_eq_F",
   tmf "year_9" "High_yr_schl_comp_Yr_9_eq_P" "High_yr_schl_comp_Yr_9_eq_M" "High_yr_schl_comp_Yr_9_eq_F",
   tmf "year_8_or_below" "High_yr_schl_comp_Yr_8_belw_P" "High_yr_schl_comp_Yr_8_belw_M" "High_yr_schl_comp_Yr_8_belw_F",
   tmf "did_not_attend" "High_yr_schl_comp_D_n_g_sch_P" "High_yr_schl_comp_D_n_g_sch_M" "High_yr_schl_comp_D_n_g_sch_F"]

/-- `Population.get_education_completion`. -/
def get_education_completion (r : Record) : Except PyError (List (String × List (String × Rat))) :=
  readDict2 r eduCompleteCols

/-- Keys/columns of `get_australian_citizen_status` (src/population.py lines 188-194). -/
def citizenCols : List (String × String) :=
  [("total", "Australian_citizen_P"), ("male", "Australian_citizen_M"),
   ("female", "Australian_citizen_F")]

/-- `Population.get_australian_citizen_status`. -/
def get_australian_citizen_status (r : Record) : Except PyError (List (String × Rat)) :=
  readDict r citizenCols

/- ### DwellingStructure accessor (src/dwelling_structure.py) -/

/-- Helper for the dwelling-type sub-dicts (five categories plus total). -/
def dw6 (k sep semi flat oth ns tot : String) : String × List (String × String) :=
  (k, [("separate_house", sep), ("semi_detached", semi), ("flat_apartment", flat),
       ("other_dwelling", oth), ("not_stated", ns), ("total", tot)])

/-- Keys/columns of `get_ownership_summary` (src/dwelling_structure.py lines 29-48). -/
def ownershipCols : List (String × List (String × String)) :=
  [dw6 "owned_outright" "O_OR_DS_Sep_house" "O_OR_DS_SemiD_ro_or_tce_h_th" "O_OR_DS_Flat_apart"
     "O_OR_DS_Oth_dwell" "O_OR_DS_not_stated" "O_OR_Total",
   dw6 "owned_with_mortgage" "O_MTG_DS_Sep_house" "O_MTG_DS_SemiD_ro_or_tce_h_th" "O_MTG_DS_Flat_apart"
     "O_MTG_DS_Oth_dwell" "O_MTG_DS_not_stated" "O_MTG_Total"]

/-- `DwellingStructure.get_ownership_summary`. -/
def get_ownership_summary (r : Record) : Except PyError (List (String × List (String × Rat))) :=
  readDict2 r ownershipCols

/-- Keys/columns of `get_rental_by_type` (src/dwelling_structure.py lines 50-93). -/
def rentalByTypeCols : List (String × List (String × String)) :=
  [dw6 "real_estate_agent" "R_RE_Agt_DS_Sep_house" "R_RE_Ag_DS_SemD_ro_or_tc_h_th" "R_RE_Agt_DS_Flat_apart"
     "R_RE_Agt_DS_Oth_dwell" "R_RE_Agt_DS_not_stated" "R_RE_Agt_Total",
   dw6 "state_housing" "R_ST_h_auth_DS_Sep_house" "R_ST_h_au_DS_SD_ro_or_tc_h_th" "R_ST_h_auth_DS_Flat_apart"
     "R_ST_h_auth_DS_Oth_dwell" "R_ST_h_auth_DS_not_stated" "R_ST_h_auth_Total",
   dw6 "community_housing" "R_Com_Hp_DS_Sp_ho" "R_Com_Hp_DS_SD_ro_t_h_t" "R_Com_Hp_DS_Flt_apt"
     "R_Com_Hp_DS_Ot_dwel" "R_Com_Hp_DS_NS" "R_Com_Hp_Total",
   dw6 "private_landlord" "R_Psn_not_in_s_hh_DS_Sep_hous" "R_P_not_in_s_h_DS_SD_ro_t_h_t" "R_P_not_in_s_hh_DS_Flat_apart"
     "R_Psn_not_in_s_hh_DS_Oth_dwel" "R_Psn_not_in_s_hh_DS_NS" "R_Psn_not_in_s_hh_Total",
   dw6 "other_landlord" "R_Ot_landld_typ_DS_Sep_house" "R_O_LLd_typ_DS_SD_ro_tc_h_th" "R_Ot_LLd_typ_DS_Flat_apart"
     "R_Ot_landld_typ_DS_Oth_dwell" "R_Ot_landld_typ_DS_not_stated" "R_Ot_landld_typ_Total"]

/-- `DwellingStructure.get_rental_by_type`. -/
def get_rental_by_type (r : Record) : Except PyError (List (String × List (String × Rat))) :=
  readDict2 r rentalByTypeCols

/-- Keys/columns of `get_rental_totals` (src/dwelling_structure.py lines 95-104). -/
def rentalTotalsCols : List (String × String) :=
  [("separate_house", "R_Tot_DS_Sep_house"), ("semi_detached", "R_Tot_DS_SemiD_ro_or_tce_h_th"),
   ("flat_apartment", "R_Tot_DS_Flat_apart"), ("other_dwelling", "R_Tot_DS_Oth_dwell"),
   ("not_stated", "R_Tot_DS_not_stated"), ("total", "R_Tot_Total")]

/-- `DwellingStructure.get_rental_totals`. -/
def get_rental_totals (r : Record) : Except PyError (List (String × Rat)) :=
  readDict r rentalTotalsCols

/-- Keys/columns of `get_dwelling_totals` (src/dwelling_structure.py lines 106-115). -/
def dwellingTotalsCols : List (String × String) :=
  [("separate_house", "Total_DS_Sep_house"), ("semi_detached", "Total_DS_SemiD_ro_or_tce_h_th"),
   ("flat_apartment", "Total_DS_Flat_apart"), ("other_dwelling", "Total_DS_Oth_dwell"),
   ("not_stated", "Total_DS_not_stated"), ("total", "Total_Total")]

/-- `DwellingStructure.get_dwelling_totals`. -/
def get_dwelling_totals (r : Record) : Except PyError (List (String × Rat)) :=
  readDict r dwellingTotalsCols

/-- Keys/columns of `get_other_tenure_types` (src/dwelling_structure.py lines 117-136). -/
def otherTenureCols : List (String × List (String × String)) :=
  [dw6 "other_tenure" "Oth_ten_type_DS_Sep_house" "Oth_ten_ty_DS_SD_ro_tce_h_th" "Oth_ten_type_DS_Flat_apart"
     "Oth_ten_type_DS_Oth_dwell" "Oth_ten_type_DS_not_stated" "Oth_ten_type_Total",
   dw6 "tenure_not_stated" "Ten_type_NS_DS_Sep_house" "Ten_ty_NS_DS_SD_ro_tce_h_t" "Ten_ty_NS_DS_Flat_apart"
     "Ten_type_NS_DS_Oth_dwell" "Ten_type_NS_DS_not_stated" "Ten_type_NS_Total"]

/-- `DwellingStructure.get_other_tenure_types`. -/
def get_other_tenure_types (r : Record) : Except PyError (List (String × List (String × Rat))) :=
  readDict2 r otherTenureCols

/- ### Remaining Ancestry summaries -/

/-- Keys/columns of `get_total_population_summary` (src/ancestry.py lines 97-117). -/
def totPopSummaryCols : List (String × String) :=
  [("both_overseas", "Tot_P_BP_B_OS"), ("father_overseas", "Tot_P_FO_B_OS"),
   ("mother_overseas", "Tot_P_MO_B_OS"), ("both_australia", "Tot_P_BP_B_Aus"),
   ("not_stated", "Tot_P_BP_NS"), ("total", "Tot_P_Tot_resp")]

/-- `Ancestry.get_total_population_summary`. -/
def get_total_population_summary (r : Record) : Except PyError (List (String × Rat)) :=
  readDict r totPopSummaryCols

/-- Keys/columns of `get_australian_summary` (src/ancestry.py lines 119-156);
note the two irregular `both_australia` / `not_stated` column names in the
`general` sub-dict. -/
def australianCols : List (String × List (String × String)) :=
  [("general",
    [("both_overseas", "Aust_BP_B_OS"), ("father_overseas", "Aust_FO_B_OS"),
     ("mother_overseas", "Aust_MO_B_OS"), ("both_australia", "Aust_Both_parents_born_Aust"),
     ("not_stated", "Aust_Birthplace_not_stated"), ("total", "Aust_Tot_resp")]),
   ("aboriginal",
    [("both_overseas", "Aust_Abor_BP_B_OS"), ("father_overseas", "Aust_Abor_FO_B_OS"),
     ("mother_overseas", "Aust_Abor_MO_B_OS"), ("both_australia", "Aust_Abor_BP_B_Aus"),
     ("not_stated", "Aust_Abor_BP_NS"), ("total", "Aust_Abor_Tot_resp")])]

/-- `Ancestry.get_australian_summary`. -/
def get_australian_summary (r : Record) : Except PyError (List (String × List (String × Rat))) :=
  readDict2 r australianCols

/-- `Ancestry.get_not_stated_summary` (src/ancestry.py lines 158-178). -/
def get_not_stated_summary (r : Record) : Except PyError (List (String × Rat)) :=
  readDict r (summaryColsFor "Ancestry_NS_")

/-- `Ancestry.get_other_ancestry_summary` (src/ancestry.py lines 180-200). -/
def get_other_ancestry_summary (r : Record) : Except PyError (List (String × Rat)) :=
  readDict r (summaryColsFor "Other_")

/-- `Ancestry.get_ancestry_percentages` (src/ancestry.py lines 259-276):
dict comprehension over the summary, skipping `total`, applying
`calculate_percentage(value, total)`. -/
def get_ancestry_percentages (r : Record) (a : String) : Except PyError (List (String × Rat)) :=
  match get_ancestry_summary r a with
  | .error e => .error e
  | .ok s =>
    let total := (s.lookup "total").getD 0
    .ok ((s.filter (fun p => !(p.1 == "total"))).map (fun p => (p.1, calculate_percentage p.2 total)))

/- ### Remaining Income summaries -/

/-- Loop of `get_income_summary` accumulating `distribution["not_stated"]`
over all age bands (src/income.py lines 179-182). -/
def totalNotStatedAux (r : Record) : List String → Rat → Except PyError Rat
  | [], acc => .ok acc
  | a :: t, acc =>
    match get_income_by_age r a with
    | .error e => .error e
    | .ok d => totalNotStatedAux r t (acc + (d.lookup "not_stated").getD 0)

/-- `Income.get_income_summary` (src/income.py lines 165-189), returning
`(average_income, total_stated, total_not_stated, percentiles)`. -/
def get_income_summary (r : Record) : Except PyError (Rat × Rat × Rat × List (String × Rat)) :=
  match calculate_average_income r none with
  | .error e => .error e
  | .ok avg =>
    match totalNotStatedAux r age_bands 0 with
    | .error e => .error e
    | .ok tns =>
      match get_income_percentiles r with
      | .error e => .error e
      | .ok ps => .ok (avg.1, avg.2, tns, ps)

/-- `Income.get_age_band_summary` (src/income.py lines 191-211), returning
`(average_income, total_stated, distribution)`. -/
def get_age_band_summary (r : Record) (a : String) : Except PyError (Rat × Rat × List (String × Rat)) :=
  match calculate_average_income r (some a) with
  | .error e => .error e
  | .ok avg =>
    match get_income_by_age r a with
    | .error e => .error e
    | .ok d => .ok (avg.1, avg.2, d)

/- ### Concrete records for witnesses and counterexamples -/

/-- A record where every column is present with value 7. -/
def rSeven : Record := fun _ => some 7

/-- A record with no columns at all. -/
def rAbsent : Record := fun _ => none

/-- A record with three ancestry total-response columns and nothing else. -/
def rankRecord : Record := fun c =>
  if c = "English_Tot_resp" then some 30
  else if c = "Chinese_Tot_resp" then some 12
  else if c = "Other_Tot_resp" then some 5
  else none

/- ### Method-call dispatch for the purity claim (C9) -/

/-- Return values of the accessor methods, as Python objects. -/
inductive PyVal where
  | num (q : Rat)
  | pair (a b : Rat)
  | dict (d : List (String × Rat))
  | dict2 (d : List (String × List (String × Rat)))
  | strs (l : List String)
  | incomeSummary (avg totalStated totalNotStated : Rat) (percentiles : List (String × Rat))
  | ageSummary (avg totalStated : Rat) (dist : List (String × Rat))

/-- One invocation of an accessor method, with its arguments. -/
inductive AccessorCall where
  | popTotalPopulation
  | popAgeDistribution
  | popIndigenous
  | popEducationAttendance
  | popEducationCompletion
  | popCitizen
  | incIncomeByAge (a : String)
  | incDistribution
  | incAverage (a : Option String)
  | incPercentiles
  | incSummary
  | incAgeBandSummary (a : String)
  | dwOwnership
  | dwRentalByType
  | dwRentalTotals
  | dwDwellingTotals
  | dwOtherTenure
  | ancSummary (a : String)
  | ancTotalPopulation
  | ancAustralian
  | ancNotStated
  | ancOther
  | ancRanking
  | ancAvailable
  | ancPercentage (v t : Rat)
  | ancPercentages (a : String)

/-- Runs one accessor method on the accessor's state (its record), and
returns the result together with the state after the call. None of the
Python method bodies assigns to `self.df` or writes a dataframe cell, so
each translated body returns the record it was given. -/
def invoke : AccessorCall → Record → (Except PyError PyVal) × Record
  | .popTotalPopulation, r => ((get_total_population r).map .dict, r)
  | .popAgeDistribution, r => ((get_age_distribution r).map .dict2, r)
  | .popIndigenous, r => ((get_indigenous_statistics r).map .dict2, r)
  | .popEducationAttendance, r => ((get_education_attendance r).map .dict2, r)
  | .popEducationCompletion, r => ((get_education_completion r).map .dict2, r)
  | .popCitizen, r => ((get_australian_citizen_status r).map .dict, r)
  | .incIncomeByAge a, r => ((get_income_by_age r a).map .dict, r)
  | .incDistribution, r => ((get_income_distribution r).map .dict2, r)
  | .incAverage a, r => ((calculate_average_income r a).map (fun p => .pair p.1 p.2), r)
  | .incPercentiles, r => ((get_income_percentiles r).map .dict, r)
  | .incSummary, r =>
    ((get_income_summary r).map (fun q => .incomeSummary q.1 q.2.1 q.2.2.1 q.2.2.2), r)
  | .incAgeBandSummary a, r =>
    ((get_age_band_summary r a).map (fun q => .ageSummary q.1 q.2.1 q.2.2), r)
  | .dwOwnership, r => ((get_ownership_summary r).map .dict2, r)
  | .dwRentalByType, r => ((get_rental_by_type r).map .dict2, r)
  | .dwRentalTotals, r => ((get_rental_totals r).map .dict, r)
  | .dwDwellingTotals, r => ((get_dwelling_totals r).map .dict, r)
  | .dwOtherTenure, r => ((get_other_tenure_types r).map .dict2, r)
  | .ancSummary a, r => ((get_ancestry_summary r a).map .dict, r)
  | .ancTotalPopulation, r => ((get_total_population_summary r).map .dict, r)
  | .ancAustralian, r => ((get_australian_summary r).map .dict2, r)
  | .ancNotStated, r => ((get_not_stated_summary r).map .dict, r)
  | .ancOther, r => ((get_other_ancestry_summary r).map .dict, r)
  | .ancRanking, r => (.ok (.dict (get_ancestry_ranking r)), r)
  | .ancAvailable, r => (.ok (.strs get_available_ancestries), r)
  | .ancPercentage v t, r => (.ok (.num (calculate_percentage v t)), r)
  | .ancPercentages a, r => ((get_ancestry_percentages r a).map .dict, r)

/-- Statement device for claim C5 on the nested summaries: every sub-dict
of the returned summary takes its `total` entry from the column that the
method's (key, column) table designates as that category's dedicated total
column. -/
def nestedTotalsFromColumns (r : Record) (cols : List (String × List (String × String)))
    (s : List (String × List (String × Rat))) : Prop :=
  ∀ k inner, cols.lookup k = some inner → ∀ c, inner.lookup "total" = some c →
    ∀ sub, s.lookup k = some sub → sub.lookup "total" = r c

/- ### Basic facts about `readDict` -/

theorem readDict_ok_lookup {r : Record} {l : List (String × String)} {s : List (String × Rat)}
    (h : readDict r l = .ok s) {k : String} {c : String} (hk : l.lookup k = some c) :
    s.lookup k = r c := by
  induction l generalizing s with
  | nil => simp [List.lookup] at hk
  | cons p t ih =>
    obtain ⟨k', c'⟩ := p
    rw [readDict] at h
    cases hv : getValue r c' with
    | error e => rw [hv] at h; exact absurd h (by simp)
    | ok v =>
      rw [hv] at h
      cases hrest : readDict r t with
      | error e => rw [hrest] at h; exact absurd h (by simp)
      | ok rest =>
        rw [hrest] at h
        injection h with h
        subst h
        rw [List.lookup] at hk
        by_cases hkk : k = k'
        · subst hkk
          simp only [beq_self_eq_true, if_true] at hk
          injection hk with hk
          subst hk
          unfold getValue at hv
          cases hrc : r c' with
          | none => rw [hrc] at hv; exact absurd hv (by simp)
          | some w =>
            rw [hrc] at hv
            injection hv with hv
            subst hv
            simp [List.lookup, hrc]
        · have hbeq : (k == k') = false := beq_false_of_ne hkk
          rw [hbeq] at hk
          simp only [List.lookup, hbeq]
          exact ih hrest hk

theorem readDict_ok_eq {r : Record} {l : List (String × String)} {s : List (String × Rat)}
    (h : readDict r l = .ok s) :
    s = l.map (fun p => (p.1, (r p.2).getD 0)) ∧ ∀ p ∈ l, r p.2 ≠ none := by
  induction l generalizing s with
  | nil =>
    rw [readDict] at h
    injection h with h
    subst h
    simp
  | cons p t ih =>
    obtain ⟨k, c⟩ := p
    rw [readDict] at h
    cases hv : getValue r c with
    | error e => rw [hv] at h; exact absurd h (by simp)
    | ok v =>
      rw [hv] at h
      cases hrest : readDict r t with
      | error e => rw [hrest] at h; exact absurd h (by simp)
      | ok rest =>
        rw [hrest] at h
        injection h with h
        subst h
        obtain ⟨ih1, ih2⟩ := ih hrest
        unfold getValue at hv
        cases hrc : r c with
        | none => rw [hrc] at hv; exact absurd hv (by simp)
        | some w =>
          rw [hrc] at hv
          injection hv with hv
          subst hv
          constructor
          · simp [ih1, hrc]
          · intro q hq
            rcases List.mem_cons.mp hq with hq | hq
            · subst hq; simp [hrc]
            · exact ih2 q hq

theorem readDict_no_invalidParameter {r : Record} {l : List (String × String)} :
    readDict r l ≠ .error .invalidParameter := by
  induction l with
  | nil => rw [readDict]; simp
  | cons p t ih =>
    rw [readDict]
    cases hv : getValue r p.2 with
    | error e =>
      unfold getValue at hv
      cases hrc : r p.2 with
      | none =>
        rw [hrc] at hv
        injection hv with hv
        intro hcontra
        injection hcontra with hcontra
        rw [← hv] at hcontra
        exact absurd hcontra (by simp)
      | some w => rw [hrc] at hv; exact absurd hv (by simp)
    | ok v =>
      cases hrest : readDict r t with
      | error e =>
        intro hcontra
        injection hcontra with hcontra
        subst hcontra
        exact ih hrest
      | ok rest => simp

/- ### Claim C1: constructor row-count validation -/

/-- C1: constructing any of the four domain accessors with a zero-row
dataset raises `EmptyRecordError`, with two or more rows raises
`AmbiguousRecordError`, and with exactly one row succeeds. -/
theorem claim_c1_constructor_validation (df : DataFrame) :
    (df.rows.length = 0 →
      Population.init df = .error .emptyRecord ∧
      Income.init df = .error .emptyRecord ∧
      DwellingStructure.init df = .error .emptyRecord ∧
      Ancestry.init df = .error .emptyRecord) ∧
    (2 ≤ df.rows.length →
      Population.init df = .error .ambiguousRecord ∧
      Income.init df = .error .ambiguousRecord ∧
      DwellingStructure.init df = .error .ambiguousRecord ∧
      Ancestry.init df = .error .ambiguousRecord) ∧
    (df.rows.length = 1 → ∃ r,
      Population.init df = .ok r ∧
      Income.init df = .ok r ∧
      DwellingStructure.init df = .ok r ∧
      Ancestry.init df = .ok r) := by
  refine ⟨fun h0 => ?_, fun h2 => ?_, fun h1 => ?_⟩
  · have he : df.isEmptyDf = true := by
      have : df.rows = [] := List.length_eq_zero.mp h0
      simp [DataFrame.isEmptyDf, this]
    simp [Population.init, Income.init, DwellingStructure.init, Ancestry.init,
      validateRow, he]
  · have he : df.isEmptyDf = false := by
      simp only [DataFrame.isEmptyDf, List.isEmpty_eq_false_iff_exists_mem]
      cases hr : df.rows with
      | nil => rw [hr] at h2; simp at h2
      | cons a t => exact ⟨a, by simp⟩
    simp [Population.init, Income.init, DwellingStructure.init, Ancestry.init,
      validateRow, he]
    omega
  · have he : df.isEmptyDf = false := by
      simp only [DataFrame.isEmptyDf, List.isEmpty_eq_false_iff_exists_mem]
      cases hr : df.rows with
      | nil => rw [hr] at h1; simp at h1
      | cons a t => exact ⟨a, by simp⟩
    refine ⟨df.rows.headD (fun _ => none), ?_⟩
    simp [Population.init, Income.init, DwellingStructure.init, Ancestry.init,
      validateRow, he, h1]

/-- Witness for C1 at concrete zero-, one- and two-row dataframes. -/
theorem claim_c1_constructor_validation_witness :
    (dfZero.rows.length = 0 ∧ Population.init dfZero = .error .emptyRecord) ∧
    (2 ≤ dfTwo.rows.length ∧ Income.init dfTwo = .error .ambiguousRecord) ∧
    (dfOne.rows.length = 1 ∧ ∃ r, Ancestry.init dfOne = .ok r) := by
  refine ⟨⟨rfl, ((claim_c1_constructor_validation dfZero).1 rfl).1⟩,
    ⟨by decide, ((claim_c1_constructor_validation dfTwo).2.1 (by decide)).2.1⟩,
    ⟨rfl, ?_⟩⟩
  obtain ⟨r, _, _, _, h4⟩ := (claim_c1_constructor_validation dfOne).2.2 rfl
  exact ⟨r, h4⟩

/- ### Claim C6: calculate_percentage -/

/-- C6: `calculate_percentage v t = v / t * 100` when `t ≠ 0` and `0` when
`t = 0`; in particular `calculate_percentage t t = 100` for `t ≠ 0`,
`calculate_percentage v 0 = 0`, and `calculate_percentage 0 t = 0`. -/
theorem claim_c6_percentage (v t : Rat) :
    (t ≠ 0 → calculate_percentage v t = v / t * 100) ∧
    (t = 0 → calculate_percentage v t = 0) ∧
    (t ≠ 0 → calculate_percentage t t = 100) ∧
    calculate_percentage v 0 = 0 ∧
    (t ≠ 0 → calculate_percentage 0 t = 0) := by
  refine ⟨fun ht => ?_, fun ht => ?_, fun ht => ?_, ?_, fun ht => ?_⟩
  · simp [calculate_percentage, ht]
  · simp [calculate_percentage, ht]
  · simp [calculate_percentage, ht, div_self ht]
  · simp [calculate_percentage]
  · simp [calculate_percentage, ht]

/-- Witness for C6 at `v = 3`, `t = 4`. -/
theorem claim_c6_percentage_witness :
    ((4 : Rat) ≠ 0 ∧ calculate_percentage 3 4 = 3 / 4 * 100) ∧
    calculate_percentage 3 0 = 0 ∧
    calculate_percentage 4 4 = 100 ∧
    calculate_percentage 0 4 = 0 := by
  refine ⟨⟨by norm_num, (claim_c6_percentage 3 4).1 (by norm_num)⟩,
    (claim_c6_percentage 3 0).2.1 rfl,
    (claim_c6_percentage 3 4).2.2.1 (by norm_num),
    (claim_c6_percentage 3 4).2.2.2.2 (by norm_num)⟩

/- ### Structure of `get_income_by_age` results -/

theorem get_income_by_age_ok {r : Record} {a : String} {d : List (String × Rat)}
    (h : get_income_by_age r a = .ok d) :
    a ∈ age_bands ∧ d = (incomeAgeCols a).map (fun p => (p.1, (r p.2).getD 0)) := by
  by_cases ha : a ∈ age_bands
  · rw [get_income_by_age, if_neg (by simpa using ha)] at h
    exact ⟨ha, (readDict_ok_eq h).1⟩
  · rw [get_income_by_age, if_pos (by simpa using ha)] at h
    exact absurd h (by simp)

theorem foldl_avgStep_bands (v : String → Rat) (bs : List String)
    (hbs : ∀ b ∈ bs, b ≠ "not_stated") (acc : Rat × Rat) :
    (bs.map (fun b => (b, v b))).foldl avgStep acc
      = (acc.1 + (bs.map (fun b => midpointOf b * v b)).sum, acc.2 + (bs.map v).sum) := by
  induction bs generalizing acc with
  | nil => simp
  | cons b t ih =>
    have hb : b ≠ "not_stated" := hbs b (by simp)
    have ht : ∀ x ∈ t, x ≠ "not_stated" := fun x hx => hbs x (by simp [hx])
    simp only [List.map_cons, List.foldl_cons, avgStep, ne_eq, hb, not_false_iff, if_pos]
    rw [ih ht]
    refine Prod.ext ?_ ?_ <;> simp <;> ring

theorem foldl_avgStep_age (r : Record) (a : String) (acc : Rat × Rat) :
    ((incomeAgeCols a).map (fun p => (p.1, (r p.2).getD 0))).foldl avgStep acc
      = (acc.1 + (incomeBandNames.map (fun b => midpointOf b * (r (incomeColName b a)).getD 0)).sum,
         acc.2 + (incomeBandNames.map (fun b => (r (incomeColName b a)).getD 0)).sum) := by
  have hshape : (incomeAgeCols a).map (fun p => (p.1, (r p.2).getD 0))
      = (incomeBandNames.map (fun b => (b, (r (incomeColName b a)).getD 0)))
        ++ [("not_stated", (r (notStatedColName a)).getD 0)] := by
    simp [incomeAgeCols, List.map_map, Function.comp]
  rw [hshape, List.foldl_append,
    foldl_avgStep_bands (fun b => (r (incomeColName b a)).getD 0) incomeBandNames (by decide) acc]
  simp [avgStep]

theorem incomeDistributionAux_ok {r : Record} {as : List String}
    {D : List (String × List (String × Rat))} (h : incomeDistributionAux r as = .ok D) :
    D = as.map (fun a => (a, (incomeAgeCols a).map (fun p => (p.1, (r p.2).getD 0)))) := by
  induction as generalizing D with
  | nil => rw [incomeDistributionAux] at h; injection h with h; subst h; simp
  | cons a t ih =>
    rw [incomeDistributionAux] at h
    cases hd : get_income_by_age r a with
    | error e => rw [hd] at h; exact absurd h (by simp)
    | ok d =>
      rw [hd] at h
      cases hrest : incomeDistributionAux r t with
      | error e => rw [hrest] at h; exact absurd h (by simp)
      | ok rest =>
        rw [hrest] at h
        injection h with h
        subst h
        simp [ih hrest, (get_income_by_age_ok hd).2]

theorem sumWeighted_shape (r : Record) (as : List String) (acc : Rat × Rat) :
    (as.map (fun a => (a, (incomeAgeCols a).map (fun p => (p.1, (r p.2).getD 0))))).foldl
        (fun acc ad => ad.2.foldl avgStep acc) acc
      = (acc.1 + (as.map (fun a =>
            (incomeBandNames.map (fun b => midpointOf b * (r (incomeColName b a)).getD 0)).sum)).sum,
         acc.2 + (as.map (fun a =>
            (incomeBandNames.map (fun b => (r (incomeColName b a)).getD 0)).sum)).sum) := by
  induction as generalizing acc with
  | nil => simp
  | cons a t ih =>
    simp only [List.map_cons, List.foldl_cons]
    rw [foldl_avgStep_age, ih]
    refine Prod.ext ?_ ?_ <;> simp <;> ring

/-- C2: for every valid record and recognized age band (and the all-ages
case), `calculate_average_income` returns the spec's weighted average —
band midpoints times counts over the stated counts, `(0, 0)` on a zero
denominator — where the count of band `b` is the value of its column. -/
theorem claim_c2_average_income (r : Record) :
    (∀ a ∈ age_bands, ∀ d, get_income_by_age r a = .ok d →
      calculate_average_income r (some a)
        = .ok (specWeightedAverage (fun b => (r (incomeColName b a)).getD 0))) ∧
    (∀ D, get_income_distribution r = .ok D →
      calculate_average_income r none
        = .ok (specWeightedAverageAll (fun a b => (r (incomeColName b a)).getD 0))) := by
  constructor
  · intro a ha d hd
    have hne : a ≠ "" := by
      have : ∀ x ∈ age_bands, x ≠ "" := by decide
      exact this a ha
    have hs : sumWeighted [(a, d)] =
        (0 + (incomeBandNames.map (fun b => midpointOf b * (r (incomeColName b a)).getD 0)).sum,
         0 + (incomeBandNames.map (fun b => (r (incomeColName b a)).getD 0)).sum) := by
      rw [(get_income_by_age_ok hd).2]
      unfold sumWeighted
      have := sumWeighted_shape r [a] (0, 0)
      simpa using this
    simp only [calculate_average_income, if_neg hne, hd]
    rw [hs]
    simp only [specWeightedAverage, zero_add]
    by_cases hz : (incomeBandNames.map (fun b => (r (incomeColName b a)).getD 0)).sum = 0 <;>
      simp [hz]
  · intro D hD
    have hD' : incomeDistributionAux r age_bands = .ok D := hD
    have hDshape := incomeDistributionAux_ok hD'
    have hs : sumWeighted D =
        (0 + (age_bands.map (fun a =>
            (incomeBandNames.map (fun b => midpointOf b * (r (incomeColName b a)).getD 0)).sum)).sum,
         0 + (age_bands.map (fun a =>
            (incomeBandNames.map (fun b => (r (incomeColName b a)).getD 0)).sum)).sum) := by
      rw [hDshape]
      unfold sumWeighted
      exact sumWeighted_shape r age_bands (0, 0)
    simp only [calculate_average_income, hD]
    rw [hs]
    simp only [specWeightedAverageAll, zero_add]
    by_cases hz : (age_bands.map (fun a =>
        (incomeBandNames.map (fun b => (r (incomeColName b a)).getD 0)).sum)).sum = 0 <;>
      simp [hz]

/-- Witness for C2: the spec's example record yields
`calculate_average_income("25_34") = (724.5, 10)`. -/
theorem claim_c2_average_income_witness :
    ("25_34" ∈ age_bands ∧
      (∃ d, get_income_by_age exampleRecord "25_34" = .ok d)) ∧
    calculate_average_income exampleRecord (some "25_34") = .ok (724.5, 10) := by
  refine ⟨⟨by decide, ⟨(incomeAgeCols "25_34").map
      (fun p => (p.1, (exampleRecord p.2).getD 0)), by rfl⟩⟩, ?_⟩
  have h := (claim_c2_average_income exampleRecord).1 "25_34" (by decide)
    ((incomeAgeCols "25_34").map (fun p => (p.1, (exampleRecord p.2).getD 0))) (by rfl)
  rw [h]
  simp [specWeightedAverage, incomeBandNames, income_bands, midpointOf,
    incomeColName, exampleRecord, List.lookup]
  norm_num

/- ### Claim C7: irregular column naming for the oldest age band -/

theorem lookup_mapKey_mem {α : Type} (f : String → α) (bs : List String)
    (rest : List (String × α)) (b : String) (hb : b ∈ bs) :
    ((bs.map (fun x => (x, f x))) ++ rest).lookup b = some (f b) := by
  induction bs with
  | nil => simp at hb
  | cons x t ih =>
    by_cases hbx : b = x
    · subst hbx
      simp [List.lookup]
    · have : b ∈ t := by
        rcases List.mem_cons.mp hb with h | h
        · exact absurd h hbx
        · exact h
      simp only [List.map_cons, List.cons_append, List.lookup, beq_false_of_ne hbx]
      exact ih this

theorem lookup_mapKey_skip {α : Type} (f : String → α) (bs : List String)
    (rest : List (String × α)) (k : String) (hk : k ∉ bs) :
    ((bs.map (fun x => (x, f x))) ++ rest).lookup k = rest.lookup k := by
  induction bs with
  | nil => simp
  | cons x t ih =>
    have hkx : k ≠ x := fun h => hk (by simp [h])
    simp only [List.map_cons, List.cons_append, List.lookup, beq_false_of_ne hkx]
    exact ih (fun h => hk (by simp [h]))

/-- C7: `get_income_by_age` reads, for age band `85ov`, the count of band
`b` from column `P_<b>_85ov` and the not-stated count from
`P_PI_NS_ns_85_yrs_ovr`, while every other recognized age band reads
`P_<b>_<age>_yrs` and `P_PI_NS_ns_<age>_yrs`. -/
theorem claim_c7_oldest_band_columns (r : Record) (a : String) (d : List (String × Rat))
    (ha : a ∈ age_bands) (hd : get_income_by_age r a = .ok d) :
    (∀ b ∈ incomeBandNames,
      d.lookup b = r (if a = "85ov" then "P_" ++ b ++ "_85ov"
                      else "P_" ++ b ++ "_" ++ a ++ "_yrs")) ∧
    d.lookup "not_stated" = r (if a = "85ov" then "P_PI_NS_ns_85_yrs_ovr"
                               else "P_PI_NS_ns_" ++ a ++ "_yrs") := by
  rw [get_income_by_age, if_neg (by simpa using ha)] at hd
  constructor
  · intro b hb
    have hcols : (incomeAgeCols a).lookup b = some (incomeColName b a) :=
      lookup_mapKey_mem (fun b => incomeColName b a) incomeBandNames _ b hb
    have := readDict_ok_lookup hd hcols
    rw [this, incomeColName]
  · have hcols : (incomeAgeCols a).lookup "not_stated" = some (notStatedColName a) := by
      rw [incomeAgeCols,
        lookup_mapKey_skip (fun b => incomeColName b a) incomeBandNames _ "not_stated" (by decide)]
      simp [List.lookup]
    have := readDict_ok_lookup hd hcols
    rw [this, notStatedColName]

/-- Witness for C7 at the oldest age band on a concrete record. -/
theorem claim_c7_oldest_band_columns_witness :
    ("85ov" ∈ age_bands ∧
      get_income_by_age exampleRecord "85ov"
        = .ok ((incomeAgeCols "85ov").map (fun p => (p.1, (exampleRecord p.2).getD 0)))) ∧
    ((incomeAgeCols "85ov").map (fun p => (p.1, (exampleRecord p.2).getD 0))).lookup "650_799"
        = exampleRecord "P_650_799_85ov" ∧
    ((incomeAgeCols "85ov").map (fun p => (p.1, (exampleRecord p.2).getD 0))).lookup "not_stated"
        = exampleRecord "P_PI_NS_ns_85_yrs_ovr" := by
  refine ⟨⟨by decide, by rfl⟩, ?_, ?_⟩
  · have h := (claim_c7_oldest_band_columns exampleRecord "85ov"
      ((incomeAgeCols "85ov").map (fun p => (p.1, (exampleRecord p.2).getD 0)))
      (by decide) (by rfl)).1 "650_799" (by decide)
    simpa using h
  · have h := (claim_c7_oldest_band_columns exampleRecord "85ov"
      ((incomeAgeCols "85ov").map (fun p => (p.1, (exampleRecord p.2).getD 0)))
      (by decide) (by rfl)).2
    simpa using h

/- ### Claim C9: accessor methods are pure reads -/

/-- C9: every accessor method is a side-effect-free read: it leaves the
wrapped record unchanged, and calling the same method again with the same
arguments on the resulting state returns an equal result. -/
theorem claim_c9_methods_pure (c : AccessorCall) (r : Record) :
    (invoke c r).2 = r ∧ (invoke c ((invoke c r).2)).1 = (invoke c r).1 := by
  cases c <;> exact ⟨rfl, rfl⟩

/- ### Claim C8 (corrected): parameter validation -/

/-- Counterexample to C8 as stated: `"Klingon"` is outside the recognized
ancestry vocabulary, yet `get_ancestry_summary` on a record that happens to
contain the derived columns succeeds instead of raising
`InvalidParameterError`. -/
theorem claim_c8_counterexample :
    "Klingon" ∉ get_available_ancestries ∧
    get_ancestry_summary rSeven "Klingon" =
      .ok [("both_overseas", 7), ("father_overseas", 7), ("mother_overseas", 7),
           ("both_australia", 7), ("not_stated", 7), ("total", 7)] :=
  ⟨by decide, rfl⟩

/-- C8 as amended: `get_income_by_age` with an unrecognized age band raises
`InvalidParameterError`; `get_ancestry_summary` performs no vocabulary
validation — it never raises `InvalidParameterError`, and with the derived
first column absent it raises `MissingFieldError` instead. -/
theorem claim_c8_amended (r : Record) (a : String) :
    (a ∉ age_bands → get_income_by_age r a = .error .invalidParameter) ∧
    (∀ anc : String, get_ancestry_summary r anc ≠ .error .invalidParameter) ∧
    (∀ anc : String, r (ancestrySummaryPre anc ++ "BP_B_OS") = none →
      get_ancestry_summary r anc
        = .error (.missingField (ancestrySummaryPre anc ++ "BP_B_OS"))) := by
  refine ⟨fun ha => ?_, fun anc => readDict_no_invalidParameter, fun anc hnone => ?_⟩
  · rw [get_income_by_age, if_pos (by simpa using ha)]
  · simp [get_ancestry_summary, summaryColsFor, readDict, getValue, hnone]

/-- Witness for the amended C8 at concrete inputs. -/
theorem claim_c8_amended_witness :
    ("banana" ∉ age_bands ∧
      get_income_by_age rSeven "banana" = .error .invalidParameter) ∧
    get_ancestry_summary rSeven "Klingon2" ≠ .error .invalidParameter ∧
    (rAbsent (ancestrySummaryPre "Dutch" ++ "BP_B_OS") = none ∧
      get_ancestry_summary rAbsent "Dutch"
        = .error (.missingField (ancestrySummaryPre "Dutch" ++ "BP_B_OS"))) :=
  ⟨⟨by decide, (claim_c8_amended rSeven "banana").1 (by decide)⟩,
   (claim_c8_amended rSeven "x").2.1 "Klingon2",
   ⟨rfl, (claim_c8_amended rAbsent "x").2.2 "Dutch" rfl⟩⟩

/- ### Claim C5: totals are read from the dedicated total column -/

theorem readDict2_ok_lookup {r : Record} {cols : List (String × List (String × String))}
    {s : List (String × List (String × Rat))} (h : readDict2 r cols = .ok s)
    {k : String} {inner : List (String × String)} (hk : cols.lookup k = some inner) :
    ∃ sub, s.lookup k = some sub ∧ readDict r inner = .ok sub := by
  induction cols generalizing s with
  | nil => simp [List.lookup] at hk
  | cons p t ih =>
    obtain ⟨k', inner'⟩ := p
    rw [readDict2] at h
    cases hd : readDict r inner' with
    | error e => rw [hd] at h; exact absurd h (by simp)
    | ok d =>
      rw [hd] at h
      cases hrest : readDict2 r t with
      | error e => rw [hrest] at h; exact absurd h (by simp)
      | ok rest =>
        rw [hrest] at h
        injection h with h
        subst h
        rw [List.lookup] at hk
        by_cases hkk : k = k'
        · subst hkk
          simp only [beq_self_eq_true, if_true] at hk
          injection hk with hk
          subst hk
          exact ⟨d, by simp [List.lookup], hd⟩
        · have hbeq : (k == k') = false := beq_false_of_ne hkk
          rw [hbeq] at hk
          have hrec := ih hrest hk
          simpa [List.lookup, hbeq] using hrec

/-- A successful nested summary takes every sub-dict's `total` entry from
the column its table designates. -/
theorem readDict2_total_from_column (r : Record) {cols : List (String × List (String × String))}
    {s : List (String × List (String × Rat))} (h : readDict2 r cols = .ok s) :
    nestedTotalsFromColumns r cols s := by
  intro k inner hk c hkk sub hsub
  obtain ⟨sub', hsub', hrd⟩ := readDict2_ok_lookup h hk
  have hss : sub = sub' := by
    rw [hsub] at hsub'
    exact Option.some.inj hsub'
  subst hss
  exact readDict_ok_lookup hrd hkk

/-- C5: for every record (including internally inconsistent ones, so the
value is never recomputed from components), every summary-returning
accessor method reads its `total` entries from the dedicated total
column: the eight flat summaries from their named total columns, the
eight nested summaries from the total column of each category's table
row, and every nested table row does carry a dedicated total column. -/
theorem claim_c5_total_from_column (r : Record) :
    (∀ s, get_total_population r = .ok s → s.lookup "total" = r "Tot_P_P") ∧
    (∀ s, get_australian_citizen_status r = .ok s → s.lookup "total" = r "Australian_citizen_P") ∧
    (∀ s, get_rental_totals r = .ok s → s.lookup "total" = r "R_Tot_Total") ∧
    (∀ s, get_dwelling_totals r = .ok s → s.lookup "total" = r "Total_Total") ∧
    (∀ s, get_total_population_summary r = .ok s → s.lookup "total" = r "Tot_P_Tot_resp") ∧
    (∀ s, get_not_stated_summary r = .ok s → s.lookup "total" = r "Ancestry_NS_Tot_resp") ∧
    (∀ s, get_other_ancestry_summary r = .ok s → s.lookup "total" = r "Other_Tot_resp") ∧
    (∀ a s, get_ancestry_summary r a = .ok s →
      s.lookup "total" = r (ancestrySummaryPre a ++ "Tot_resp")) ∧
    (∀ s, get_age_distribution r = .ok s → nestedTotalsFromColumns r ageDistCols s) ∧
    (∀ s, get_indigenous_statistics r = .ok s → nestedTotalsFromColumns r indigenousCols s) ∧
    (∀ s, get_education_attendance r = .ok s → nestedTotalsFromColumns r eduAttendCols s) ∧
    (∀ s, get_education_completion r = .ok s → nestedTotalsFromColumns r eduCompleteCols s) ∧
    (∀ s, get_ownership_summary r = .ok s → nestedTotalsFromColumns r ownershipCols s) ∧
    (∀ s, get_rental_by_type r = .ok s → nestedTotalsFromColumns r rentalByTypeCols s) ∧
    (∀ s, get_other_tenure_types r = .ok s → nestedTotalsFromColumns r otherTenureCols s) ∧
    (∀ s, get_australian_summary r = .ok s → nestedTotalsFromColumns r australianCols s) ∧
    (∀ cols ∈ [ageDistCols, indigenousCols, eduAttendCols, eduCompleteCols,
        ownershipCols, rentalByTypeCols, otherTenureCols, australianCols],
      ∀ p ∈ cols, (p.2.lookup "total").isSome = true) := by
  refine ⟨fun s hs => readDict_ok_lookup hs (by rfl),
    fun s hs => readDict_ok_lookup hs (by rfl),
    fun s hs => readDict_ok_lookup hs (by rfl),
    fun s hs => readDict_ok_lookup hs (by rfl),
    fun s hs => readDict_ok_lookup hs (by rfl),
    fun s hs => readDict_ok_lookup hs (by rfl),
    fun s hs => readDict_ok_lookup hs (by rfl),
    fun a s hs => readDict_ok_lookup hs (by rfl),
    fun s hs => readDict2_total_from_column r hs,
    fun s hs => readDict2_total_from_column r hs,
    fun s hs => readDict2_total_from_column r hs,
    fun s hs => readDict2_total_from_column r hs,
    fun s hs => readDict2_total_from_column r hs,
    fun s hs => readDict2_total_from_column r hs,
    fun s hs => readDict2_total_from_column r hs,
    fun s hs => readDict2_total_from_column r hs,
    by decide⟩

/-- Witness for C5 on a record with every column set to 7: a flat summary
(`get_total_population`) and a nested one (`get_age_distribution`, group
`85+`) both read their totals from the dedicated columns. -/
theorem claim_c5_total_from_column_witness :
    (get_total_population rSeven = .ok [("total", 7), ("male", 7), ("female", 7)]) ∧
    ([("total", (7 : Rat)), ("male", 7), ("female", 7)].lookup "total" = rSeven "Tot_P_P") ∧
    (get_age_distribution rSeven
      = .ok (ageDistCols.map (fun p => (p.1, p.2.map (fun q => (q.1, (rSeven q.2).getD 0)))))) ∧
    ([("total", (7 : Rat)), ("male", 7), ("female", 7)].lookup "total" = rSeven "Age_85ov_P") := by
  refine ⟨rfl, (claim_c5_total_from_column rSeven).1 _ rfl, rfl, ?_⟩
  have hok : get_age_distribution rSeven
      = .ok (ageDistCols.map (fun p => (p.1, p.2.map (fun q => (q.1, (rSeven q.2).getD 0))))) := by
    rfl
  have hinner : ageDistCols.lookup "85+"
      = some [("total", "Age_85ov_P"), ("male", "Age_85ov_M"), ("female", "Age_85ov_F")] := by
    rfl
  have hsub : (ageDistCols.map (fun p =>
        (p.1, p.2.map (fun q => (q.1, (rSeven q.2).getD 0))))).lookup "85+"
      = some [("total", (7 : Rat)), ("male", 7), ("female", 7)] := by
    rfl
  exact (claim_c5_total_from_column rSeven).2.2.2.2.2.2.2.2.1 _ hok
    "85+" _ hinner "Age_85ov_P" (by rfl) _ hsub

/- ### Dict-insert lemmas for the ancestry ranking -/

theorem pyDictInsert_mem {d : List (String × Rat)} {k : String} {v : Rat} {q : String × Rat}
    (hq : q ∈ pyDictInsert d k v) : q ∈ d ∨ q = (k, v) := by
  rw [pyDictInsert] at hq
  by_cases hany : d.any (fun p => p.1 == k)
  · rw [if_pos hany] at hq
    obtain ⟨p, hp, hpq⟩ := List.mem_map.mp hq
    by_cases hpk : (p.1 == k) = true
    · right
      have hpk' : p.1 = k := by simpa using hpk
      rw [if_pos hpk] at hpq
      rw [← hpq, hpk']
    · left
      rw [if_neg hpk] at hpq
      rw [← hpq]
      exact hp
  · rw [if_neg hany] at hq
    rcases List.mem_append.mp hq with h | h
    · left; exact h
    · right; simpa using h

/-- Every entry accumulated by the ranking loop has a positive total read
from the `Tot_resp` column of some prefix in the table. -/
theorem ancestryTotalsAux_mem (r : Record) (ps : List String)
    (hps : ∀ p ∈ ps, p ∈ ancestryPrefixList) (d : List (String × Rat))
    (hd : ∀ q ∈ d, 0 < q.2 ∧ ∃ pre ∈ ancestryPrefixList,
      displayNameOf pre = q.1 ∧ r (pre ++ "Tot_resp") = some q.2) :
    ∀ q ∈ ancestryTotalsAux r ps d, 0 < q.2 ∧ ∃ pre ∈ ancestryPrefixList,
      displayNameOf pre = q.1 ∧ r (pre ++ "Tot_resp") = some q.2 := by
  induction ps generalizing d with
  | nil => intro q hq; rw [ancestryTotalsAux] at hq; exact hd q hq
  | cons pre t ih =>
    intro q hq
    rw [ancestryTotalsAux] at hq
    cases hrc : r (pre ++ "Tot_resp") with
    | none =>
      rw [hrc] at hq
      exact ih (fun p hp => hps p (by simp [hp])) d hd q hq
    | some total =>
      rw [hrc] at hq
      by_cases hpos : 0 < total
      · have hq2 : q ∈ ancestryTotalsAux r t (pyDictInsert d (displayNameOf pre) total) := by
          simpa [hpos] using hq
        refine ih (fun p hp => hps p (by simp [hp])) _ ?_ q hq2
        intro q' hq'
        rcases pyDictInsert_mem hq' with h | h
        · exact hd q' h
        · subst h
          exact ⟨hpos, pre, hps pre (by simp), rfl, hrc⟩
      · have hq2 : q ∈ ancestryTotalsAux r t d := by
          simpa [hpos] using hq
        exact ih (fun p hp => hps p (by simp [hp])) d hd q hq2

/- ### Claim C4: ranking sorted, positive, present -/

/-- C4: `get_ancestry_ranking` is ordered non-increasing by count, and
every entry has a positive total read from a present `Tot_resp` column of
some table prefix (zero/negative totals and absent columns are skipped). -/
theorem claim_c4_ranking_sorted_filtered (r : Record) :
    List.Sorted rankGE (get_ancestry_ranking r) ∧
    ∀ q ∈ get_ancestry_ranking r, 0 < q.2 ∧ ∃ pre ∈ ancestryPrefixList,
      displayNameOf pre = q.1 ∧ r (pre ++ "Tot_resp") = some q.2 := by
  constructor
  · exact List.sorted_insertionSort rankGE _
  · intro q hq
    have hq' : q ∈ ancestryTotalsAux r ancestryPrefixList [] :=
      (List.mem_insertionSort rankGE).mp hq
    exact ancestryTotalsAux_mem r ancestryPrefixList (fun p hp => hp) [] (by simp) q hq'

/-- Witness for C4 at a record holding English, Chinese and Other totals. -/
theorem claim_c4_ranking_sorted_filtered_witness :
    ("English", (30 : Rat)) ∈ get_ancestry_ranking rankRecord ∧
    (0 < (30 : Rat) ∧ ∃ pre ∈ ancestryPrefixList,
      displayNameOf pre = "English" ∧ rankRecord (pre ++ "Tot_resp") = some 30) := by
  have hmem : ("English", (30 : Rat)) ∈ get_ancestry_ranking rankRecord := by decide
  exact ⟨hmem, (claim_c4_ranking_sorted_filtered rankRecord).2 _ hmem⟩

/- ### Claim C10: the duplicate "Other_" prefix entry is harmless -/

/-- Display names are injective on the prefix table (the only repeated
display name comes from the literally repeated `"Other_"` string). -/
theorem displayNameOf_inj_on :
    ∀ p1 ∈ ancestryPrefixList, ∀ p2 ∈ ancestryPrefixList,
      displayNameOf p1 = displayNameOf p2 → p1 = p2 := by decide

theorem ancestryTotalsAux_cons_none (r : Record) (pre : String) (t : List String)
    (d : List (String × Rat)) (h : r (pre ++ "Tot_resp") = none) :
    ancestryTotalsAux r (pre :: t) d = ancestryTotalsAux r t d := by
  rw [ancestryTotalsAux, h]

theorem ancestryTotalsAux_cons_pos (r : Record) (pre : String) (t : List String)
    (d : List (String × Rat)) (total : Rat) (h : r (pre ++ "Tot_resp") = some total)
    (hpos : 0 < total) :
    ancestryTotalsAux r (pre :: t) d
      = ancestryTotalsAux r t (pyDictInsert d (displayNameOf pre) total) := by
  rw [ancestryTotalsAux, h]
  simp [hpos]

theorem ancestryTotalsAux_cons_nonpos (r : Record) (pre : String) (t : List String)
    (d : List (String × Rat)) (total : Rat) (h : r (pre ++ "Tot_resp") = some total)
    (hpos : ¬ 0 < total) :
    ancestryTotalsAux r (pre :: t) d = ancestryTotalsAux r t d := by
  rw [ancestryTotalsAux, h]
  simp [hpos]

theorem ancestryTotalsAuxFW_cons_none (r : Record) (pre : String) (t : List String)
    (d : List (String × Rat)) (h : r (pre ++ "Tot_resp") = none) :
    ancestryTotalsAuxFW r (pre :: t) d = ancestryTotalsAuxFW r t d := by
  rw [ancestryTotalsAuxFW, h]

theorem ancestryTotalsAuxFW_cons_pos (r : Record) (pre : String) (t : List String)
    (d : List (String × Rat)) (total : Rat) (h : r (pre ++ "Tot_resp") = some total)
    (hpos : 0 < total) :
    ancestryTotalsAuxFW r (pre :: t) d
      = ancestryTotalsAuxFW r t (pyDictInsertFW d (displayNameOf pre) total) := by
  rw [ancestryTotalsAuxFW, h]
  simp [hpos]

theorem ancestryTotalsAuxFW_cons_nonpos (r : Record) (pre : String) (t : List String)
    (d : List (String × Rat)) (total : Rat) (h : r (pre ++ "Tot_resp") = some total)
    (hpos : ¬ 0 < total) :
    ancestryTotalsAuxFW r (pre :: t) d = ancestryTotalsAuxFW r t d := by
  rw [ancestryTotalsAuxFW, h]
  simp [hpos]

theorem pyDictInsert_keysNodup {d : List (String × Rat)} {k : String} {v : Rat}
    (hd : (d.map Prod.fst).Nodup) : ((pyDictInsert d k v).map Prod.fst).Nodup := by
  rw [pyDictInsert]
  by_cases hany : d.any (fun p => p.1 == k)
  · rw [if_pos hany]
    have hmap : (d.map (fun p => if p.1 == k then (p.1, v) else p)).map Prod.fst
        = d.map Prod.fst := by
      rw [List.map_map]
      apply List.map_congr_left
      intro p hp
      by_cases hpk : p.1 = k
      · simp [hpk]
      · simp [hpk]
    rw [hmap]
    exact hd
  · rw [if_neg hany]
    rw [List.map_append]
    simp only [List.map_cons, List.map_nil]
    rw [List.nodup_append]
    refine ⟨hd, List.nodup_singleton k, ?_⟩
    intro a ha hak
    have hak' : a = k := by simpa using hak
    obtain ⟨p, hp, hpfst⟩ := List.mem_map.mp ha
    apply hany
    refine List.any_eq_true.mpr ⟨p, hp, ?_⟩
    simp [hpfst, hak']

theorem ancestryTotalsAux_keysNodup (r : Record) (ps : List String) (d : List (String × Rat))
    (hd : (d.map Prod.fst).Nodup) :
    ((ancestryTotalsAux r ps d).map Prod.fst).Nodup := by
  induction ps generalizing d with
  | nil => rw [ancestryTotalsAux]; exact hd
  | cons pre t ih =>
    cases hrc : r (pre ++ "Tot_resp") with
    | none =>
      rw [ancestryTotalsAux_cons_none r pre t d hrc]
      exact ih d hd
    | some total =>
      by_cases hpos : 0 < total
      · rw [ancestryTotalsAux_cons_pos r pre t d total hrc hpos]
        exact ih _ (pyDictInsert_keysNodup hd)
      · rw [ancestryTotalsAux_cons_nonpos r pre t d total hrc hpos]
        exact ih d hd

/-- When every entry value of `d` is determined by the column of the prefix
displaying to its key, first-write-wins and last-write-wins accumulation
coincide. -/
theorem ancestryTotalsAuxFW_eq (r : Record) (ps : List String)
    (hps : ∀ p ∈ ps, p ∈ ancestryPrefixList) (d : List (String × Rat))
    (hd : ∀ q ∈ d, ∃ pre ∈ ancestryPrefixList,
      displayNameOf pre = q.1 ∧ r (pre ++ "Tot_resp") = some q.2) :
    ancestryTotalsAuxFW r ps d = ancestryTotalsAux r ps d := by
  induction ps generalizing d with
  | nil => rw [ancestryTotalsAuxFW, ancestryTotalsAux]
  | cons pre t ih =>
    cases hrc : r (pre ++ "Tot_resp") with
    | none =>
      rw [ancestryTotalsAuxFW_cons_none r pre t d hrc, ancestryTotalsAux_cons_none r pre t d hrc]
      exact ih (fun p hp => hps p (by simp [hp])) d hd
    | some total =>
      by_cases hpos : 0 < total
      · rw [ancestryTotalsAuxFW_cons_pos r pre t d total hrc hpos,
          ancestryTotalsAux_cons_pos r pre t d total hrc hpos]
        have hins : pyDictInsertFW d (displayNameOf pre) total
            = pyDictInsert d (displayNameOf pre) total := by
          rw [pyDictInsertFW, pyDictInsert]
          by_cases hany : d.any (fun p => p.1 == displayNameOf pre)
          · rw [if_pos hany, if_pos hany]
            have hid : ∀ p ∈ d,
                (if p.1 == displayNameOf pre then (p.1, total) else p) = p := by
              intro p hp
              by_cases hpk : (p.1 == displayNameOf pre) = true
              · rw [if_pos hpk]
                obtain ⟨pre', hpre'mem, hdisp, hval⟩ := hd p hp
                have hp1 : p.1 = displayNameOf pre := by simpa using hpk
                have hpre' : pre' = pre :=
                  displayNameOf_inj_on pre' hpre'mem pre (hps pre (by simp))
                    (by rw [hdisp, hp1])
                rw [hpre', hrc] at hval
                have hv2 : p.2 = total := by
                  injection hval with hval
                  exact hval.symm
                rw [← hv2]
              · rw [if_neg hpk]
            exact (calc
              d.map (fun p => if p.1 == displayNameOf pre then (p.1, total) else p)
                  = d.map id := List.map_congr_left hid
              _ = d := List.map_id d).symm
          · rw [if_neg hany, if_neg hany]
        rw [hins]
        refine ih (fun p hp => hps p (by simp [hp])) _ ?_
        intro q hq
        rcases pyDictInsert_mem hq with h | h
        · exact hd q h
        · subst h
          exact ⟨pre, hps pre (by simp), rfl, hrc⟩
      · rw [ancestryTotalsAuxFW_cons_nonpos r pre t d total hrc hpos,
          ancestryTotalsAux_cons_nonpos r pre t d total hrc hpos]
        exact ih (fun p hp => hps p (by simp [hp])) d hd

/-- C10: the duplicated `"Other_"` table entry is behaviorally harmless:
the ranking has at most one entry per display name, an `"Other"` entry
holds the value of `Other_Tot_resp`, and first-write-wins accumulation
produces the same ranking as the implemented last-write-wins dict. -/
theorem claim_c10_duplicate_other_harmless (r : Record) :
    ((get_ancestry_ranking r).map Prod.fst).Nodup ∧
    (∀ v : Rat, ("Other", v) ∈ get_ancestry_ranking r → r "Other_Tot_resp" = some v) ∧
    ancestryRankingFW r = get_ancestry_ranking r := by
  refine ⟨?_, fun v hv => ?_, ?_⟩
  · have hperm := List.perm_insertionSort rankGE (ancestryTotalsAux r ancestryPrefixList [])
    have hnodup := ancestryTotalsAux_keysNodup r ancestryPrefixList [] (by simp)
    exact ((hperm.map Prod.fst).nodup_iff).mpr hnodup
  · have h := ancestryTotalsAux_mem r ancestryPrefixList (fun p hp => hp) [] (by simp)
      ("Other", v) ((List.mem_insertionSort rankGE).mp hv)
    obtain ⟨-, pre, hpremem, hdisp, hval⟩ := h
    have hpre : pre = "Other_" := by
      have honly : ∀ p ∈ ancestryPrefixList, displayNameOf p = "Other" → p = "Other_" := by
        decide
      exact honly pre hpremem hdisp
    rw [hpre] at hval
    exact hval
  · rw [ancestryRankingFW, get_ancestry_ranking,
      ancestryTotalsAuxFW_eq r ancestryPrefixList (fun p hp => hp) [] (by simp)]

/-- Witness for C10: the `"Other"` entry of a concrete ranking carries the
value of `Other_Tot_resp`. -/
theorem claim_c10_duplicate_other_harmless_witness :
    ("Other", (5 : Rat)) ∈ get_ancestry_ranking rankRecord ∧
    rankRecord "Other_Tot_resp" = some 5 := by
  have hmem : ("Other", (5 : Rat)) ∈ get_ancestry_ranking rankRecord := by decide
  exact ⟨hmem, (claim_c10_duplicate_other_harmless rankRecord).2.1 5 hmem⟩

/- ### Claim C3: income percentiles -/

theorem getD_of_all_eq {l : List Rat} {m : Rat} (hall : ∀ x ∈ l, x = m) {i : Nat}
    (hi : i < l.length) : l.getD i 0 = m := by
  induction l generalizing i with
  | nil => simp at hi
  | cons a t ih =>
    cases i with
    | zero =>
      rw [List.getD_cons_zero]
      exact hall a (by simp)
    | succ n =>
      rw [List.getD_cons_succ]
      exact ih (fun x hx => hall x (by simp [hx])) (by simpa using hi)

/-- A percentile (for `0 ≤ p ≤ 100`) of a non-empty constant multiset is
that constant. -/
theorem npPercentile_const {l : List Rat} {m : Rat} (hne : l ≠ [])
    (hall : ∀ x ∈ l, x = m) {p : Rat} (hp0 : 0 ≤ p) (hp1 : p ≤ 100) :
    npPercentile l p = m := by
  rw [npPercentile]
  have hperm := List.perm_insertionSort (fun a b : Rat => a ≤ b) l
  have hsall : ∀ x ∈ List.insertionSort (fun a b : Rat => a ≤ b) l, x = m :=
    fun x hx => hall x (hperm.mem_iff.mp hx)
  have hslen : (List.insertionSort (fun a b : Rat => a ≤ b) l).length = l.length :=
    hperm.length_eq
  have hn : 1 ≤ (List.insertionSort (fun a b : Rat => a ≤ b) l).length := by
    rw [hslen]
    have : l.length ≠ 0 := fun h => hne (List.length_eq_zero.mp h)
    omega
  set n := (List.insertionSort (fun a b : Rat => a ≤ b) l).length with hndef
  have hn1 : (1 : Rat) ≤ (n : Rat) := by exact_mod_cast hn
  set h : Rat := p / 100 * ((n : Rat) - 1) with hhdef
  have hh0 : 0 ≤ h := by
    apply mul_nonneg (div_nonneg hp0 (by norm_num))
    linarith
  have hh1 : h ≤ (n : Rat) - 1 := by
    have hd1 : p / 100 ≤ 1 := by
      rw [div_le_one (by norm_num)]
      exact hp1
    have := mul_le_of_le_one_left (sub_nonneg.mpr hn1) hd1
    linarith [this]
  have hfl0 : (0 : Int) ≤ ⌊h⌋ := Int.le_floor.mpr (by exact_mod_cast hh0)
  have hcl : ⌈h⌉ ≤ (n : Int) - 1 := by
    apply Int.ceil_le.mpr
    push_cast
    exact hh1
  have hfc : ⌊h⌋ ≤ ⌈h⌉ := Int.floor_le_ceil h
  have hlo : (⌊h⌋).toNat < n := by omega
  have hhi : (⌈h⌉).toNat < n := by omega
  rw [getD_of_all_eq hsall hlo, getD_of_all_eq hsall hhi]
  ring

/-- C3: `get_income_percentiles` returns the linear-interpolation
percentiles (25, 50, 75, 90) of the multiset where each band midpoint
appears once per unit of integer-truncated count; when every sample of
that multiset is a single band's midpoint, all four keys map to that
midpoint. -/
theorem claim_c3_income_percentiles (r : Record) (l : List Rat)
    (hl : allIncomes r = .ok l) (hne : l ≠ []) :
    get_income_percentiles r =
      .ok [("p25", npPercentile l 25), ("median", npPercentile l 50),
           ("p75", npPercentile l 75), ("p90", npPercentile l 90)] ∧
    ∀ m : Rat, (∀ x ∈ l, x = m) →
      get_income_percentiles r = .ok [("p25", m), ("median", m), ("p75", m), ("p90", m)] := by
  have hemp : l.isEmpty = false := by
    cases l with
    | nil => exact absurd rfl hne
    | cons a t => rfl
  have hfirst : get_income_percentiles r =
      .ok [("p25", npPercentile l 25), ("median", npPercentile l 50),
           ("p75", npPercentile l 75), ("p90", npPercentile l 90)] := by
    rw [get_income_percentiles, hl]
    simp [hemp]
  refine ⟨hfirst, fun m hall => ?_⟩
  rw [hfirst,
    npPercentile_const hne hall (by norm_num) (by norm_num),
    npPercentile_const hne hall (by norm_num) (by norm_num),
    npPercentile_const hne hall (by norm_num) (by norm_num),
    npPercentile_const hne hall (by norm_num) (by norm_num)]

set_option maxRecDepth 40000 in
/-- Witness for C3: on the example record all multiset samples are the
midpoint of band `650_799`, and all four percentile keys return it. -/
theorem claim_c3_income_percentiles_witness :
    (allIncomes exampleRecord = .ok (List.replicate 10 (midpointOf "650_799")) ∧
      List.replicate 10 (midpointOf "650_799") ≠ [] ∧
      (∀ x ∈ List.replicate 10 (midpointOf "650_799"), x = midpointOf "650_799")) ∧
    get_income_percentiles exampleRecord =
      .ok [("p25", midpointOf "650_799"), ("median", midpointOf "650_799"),
           ("p75", midpointOf "650_799"), ("p90", midpointOf "650_799")] ∧
    midpointOf "650_799" = 724.5 := by
  have hl : allIncomes exampleRecord = .ok (List.replicate 10 (midpointOf "650_799")) := by
    rfl
  refine ⟨⟨hl, by simp, fun x hx => List.eq_of_mem_replicate hx⟩, ?_,
    by norm_num [midpointOf, income_bands, List.lookup]⟩
  exact (claim_c3_income_percentiles exampleRecord _ hl (by simp)).2 _
    (fun x hx => List.eq_of_mem_replicate hx)
